import Mathlib

/-!
Shallow embedding of the Flask service in `app.py`.

The service registers two routes, `/hello/<name>` and `/health`, whose
handlers return JSON bodies via `flask.jsonify`, and when run directly it
binds the development server to host 0.0.0.0 on port 5000.  The routing
layer is modelled after the framework's default behaviour: a request path
is split on the slash character, a literal pattern segment must be equal
to the corresponding path segment, and a placeholder segment (written
between angle brackets, default string converter) captures exactly one
non-empty path segment.
-/

namespace AppPy

/-- JSON values as produced by `flask.jsonify`; only strings and objects
occur in this application. -/
inductive Json where
  | str : String → Json
  | obj : List (String × Json) → Json

/-- An HTTP response: status code, Content-Type header and JSON body. -/
structure Response where
  status : Nat
  contentType : String
  body : Json

/-- `flask.jsonify`: wrap a JSON value in a 200 response whose
Content-Type is application/json. -/
def jsonify (j : Json) : Response :=
  { status := 200, contentType := "application/json", body := j }

/-- Handler of `/hello/<name>` (function `hello` in app.py): return a
personalized greeting built from the captured path segment. -/
def hello (name : String) : Response :=
  jsonify (Json.obj [("message", Json.str ("Hello, " ++ name ++ "!"))])

/-- Handler of `/health` (function `health` in app.py): health check
endpoint for monitoring. -/
def health : Response :=
  jsonify (Json.obj [("status", Json.str "healthy")])

/-- Split a character list on the path separator.  Models the router's
segmentation of URL paths and of route patterns. -/
def splitOnSlash : List Char → List (List Char)
  | [] => [[]]
  | c :: cs =>
    if c = '/' then [] :: splitOnSlash cs
    else
      match splitOnSlash cs with
      | [] => [[c]]
      | s :: ss => (c :: s) :: ss

/-- Is a pattern segment a placeholder?  Placeholders are written between
angle brackets, as in `<name>`. -/
def isCapture (seg : List Char) : Bool :=
  match seg with
  | c :: _ => c = '<'
  | [] => false

/-- Match a list of pattern segments against a list of path segments,
collecting the values captured by placeholder segments.  The default
string converter only matches a non-empty segment (and never one with a
slash, since path segments come from `splitOnSlash`). -/
def segMatch : List (List Char) → List (List Char) → Option (List String)
  | [], [] => some []
  | p :: ps, q :: qs =>
    if isCapture p then
      if q.isEmpty then none
      else (segMatch ps qs).map (fun caps => String.mk q :: caps)
    else if p = q then segMatch ps qs else none
  | _, _ => none

/-- Match a route pattern such as "/hello/<name>" against a request path,
returning the captured path parameters on success. -/
def matchPattern (pattern path : String) : Option (List String) :=
  segMatch (splitOnSlash pattern.data) (splitOnSlash path.data)

/-- A registered route: URL pattern, allowed methods and handler.  The
handler receives the captured path parameters; `none` models an uncaught
handler error (which never occurs in this application). -/
structure Route where
  pattern : String
  methods : List String
  handle : List String → Option Response

/-- The routing state of the Flask application object: its table of
registered routes. -/
structure App where
  routes : List Route

/-- The route registered by `@app.route('/hello/<name>')`. -/
def helloRoute : Route :=
  { pattern := "/hello/<name>", methods := ["GET"],
    handle := fun ps =>
      match ps with
      | [n] => some (hello n)
      | _ => none }

/-- The route registered by `@app.route('/health')`. -/
def healthRoute : Route :=
  { pattern := "/health", methods := ["GET"],
    handle := fun ps =>
      match ps with
      | [] => some health
      | _ => none }

/-- The application with its two registered routes (app.py lines 4-14). -/
def app : App := { routes := [helloRoute, healthRoute] }

/-- Outcome of dispatching one request: a handler response, the
framework's default 404 for an unmatched route, or a 500 for a handler
error. -/
inductive HttpResult where
  | ok : Response → HttpResult
  | notFound : HttpResult
  | serverError : HttpResult

/-- Find the first registered route whose allowed methods and pattern
match the request, together with the captured path parameters. -/
def findRoute : List Route → String → String → Option (Route × List String)
  | [], _, _ => none
  | r :: rs, method, path =>
    if method ∈ r.methods then
      match matchPattern r.pattern path with
      | some caps => some (r, caps)
      | none => findRoute rs method path
    else findRoute rs method path

/-- Dispatch one request through the router. -/
def dispatch (a : App) (method path : String) : HttpResult :=
  match findRoute a.routes method path with
  | some (r, caps) =>
    match r.handle caps with
    | some resp => HttpResult.ok resp
    | none => HttpResult.serverError
  | none => HttpResult.notFound

/-- Serve one request: the response together with the application state
afterwards.  The handlers in app.py touch no mutable state, so the
application state after a request is the state before it. -/
def step (a : App) (req : String × String) : HttpResult × App :=
  (dispatch a req.1 req.2, a)

/-- Serve a sequence of requests in order, threading the application
state through every request. -/
def serveRun : App → List (String × String) → List HttpResult × App
  | a, [] => ([], a)
  | a, req :: reqs =>
    let res := step a req
    let rest := serveRun res.2 reqs
    (res.1 :: rest.1, rest.2)

/-- Look up a field in a list of JSON object members. -/
def lookupField : List (String × Json) → String → Option Json
  | [], _ => none
  | (k, v) :: rest, key => if k = key then some v else lookupField rest key

/-- Look up a field of a JSON value (objects only). -/
def Json.lookup : Json → String → Option Json
  | Json.str _, _ => none
  | Json.obj fields, key => lookupField fields key

/-- Configuration of the development server started by `app.run`. -/
structure RunConfig where
  host : String
  port : Nat

/-- The `__main__` block of app.py: `app.run(host='0.0.0.0', port=5000)`.
The process environment and command-line arguments are parameters of the
model; the source reads neither. -/
def mainRun (_env : List (String × String)) (_args : List String) : RunConfig :=
  { host := "0.0.0.0", port := 5000 }

theorem string_mk_data (s : String) : String.mk s.data = s := by
  cases s
  rfl

theorem string_data_append (a b : String) : (a ++ b).data = a.data ++ b.data := by
  cases a
  cases b
  rfl

theorem splitOnSlash_slash (cs : List Char) :
    splitOnSlash ('/' :: cs) = [] :: splitOnSlash cs := by
  simp [splitOnSlash]

theorem splitOnSlash_cons_of_ne (c : Char) (cs : List Char) (h : c ≠ '/') :
    splitOnSlash (c :: cs) =
      match splitOnSlash cs with
      | [] => [[c]]
      | s :: ss => (c :: s) :: ss := by
  simp [splitOnSlash, h]

theorem splitOnSlash_ne_nil (cs : List Char) : splitOnSlash cs ≠ [] := by
  cases cs with
  | nil => simp [splitOnSlash]
  | cons c cs =>
    by_cases hc : c = '/'
    · subst hc
      rw [splitOnSlash_slash]
      simp
    · rw [splitOnSlash_cons_of_ne c cs hc]
      cases hsp : splitOnSlash cs with
      | nil => simp
      | cons s ss => simp

theorem splitOnSlash_no_slash (cs : List Char) (h : '/' ∉ cs) :
    splitOnSlash cs = [cs] := by
  induction cs with
  | nil => rfl
  | cons c cs ih =>
    have hc : c ≠ '/' := by
      intro hh
      subst hh
      exact h (List.mem_cons_self _ _)
    have hcs : '/' ∉ cs := fun hm => h (List.mem_cons_of_mem c hm)
    rw [splitOnSlash_cons_of_ne c cs hc, ih hcs]

theorem splitOnSlash_seg (seg rest : List Char) (h : '/' ∉ seg) :
    splitOnSlash (seg ++ '/' :: rest) = seg :: splitOnSlash rest := by
  induction seg with
  | nil => exact splitOnSlash_slash rest
  | cons c cs ih =>
    have hc : c ≠ '/' := by
      intro hh
      subst hh
      exact h (List.mem_cons_self _ _)
    have hcs : '/' ∉ cs := fun hm => h (List.mem_cons_of_mem c hm)
    rw [List.cons_append, splitOnSlash_cons_of_ne c _ hc, ih hcs]

theorem splitOnSlash_length_of_slash (cs : List Char) (h : '/' ∈ cs) :
    2 ≤ (splitOnSlash cs).length := by
  induction cs with
  | nil => cases h
  | cons c cs ih =>
    by_cases hc : c = '/'
    · subst hc
      rw [splitOnSlash_slash]
      cases hsp : splitOnSlash cs with
      | nil => exact absurd hsp (splitOnSlash_ne_nil cs)
      | cons s ss => simp
    · have hmem : '/' ∈ cs := by
        rcases List.mem_cons.mp h with h1 | h2
        · exact absurd h1.symm hc
        · exact h2
      rw [splitOnSlash_cons_of_ne c cs hc]
      cases hsp : splitOnSlash cs with
      | nil => exact absurd hsp (splitOnSlash_ne_nil cs)
      | cons s ss =>
        have h2 := ih hmem
        rw [hsp] at h2
        simpa using h2

theorem segMatch_none_of_length_ne (ps : List (List Char)) :
    ∀ qs : List (List Char), ps.length ≠ qs.length → segMatch ps qs = none := by
  induction ps with
  | nil =>
    intro qs h
    cases qs with
    | nil => simp at h
    | cons q qs => rfl
  | cons p ps ih =>
    intro qs h
    cases qs with
    | nil => rfl
    | cons q qs =>
      have h2 : ps.length ≠ qs.length := by simpa using h
      by_cases hcap : isCapture p
      · by_cases hq : q.isEmpty
        · simp [segMatch, hcap, hq]
        · simp [segMatch, hcap, hq, ih qs h2]
      · by_cases hpq : p = q
        · simp [segMatch, hcap, hpq, ih qs h2]
        · simp [segMatch, hcap, hpq]

theorem split_hello_pattern :
    splitOnSlash "/hello/<name>".data = [[], "hello".data, "<name>".data] := by
  decide

theorem split_health_pattern :
    splitOnSlash "/health".data = [[], "health".data] := by
  decide

theorem data_hello_path (s : String) :
    ("/hello/" ++ s).data = '/' :: ("hello".data ++ '/' :: s.data) := by
  cases s
  rfl

theorem split_hello_path (s : String) :
    splitOnSlash ("/hello/" ++ s).data = [] :: "hello".data :: splitOnSlash s.data := by
  rw [data_hello_path, splitOnSlash_slash, splitOnSlash_seg _ _ (by decide)]

theorem matchPattern_hello (s : String) (h1 : s.data ≠ []) (h2 : '/' ∉ s.data) :
    matchPattern "/hello/<name>" ("/hello/" ++ s) = some [s] := by
  obtain ⟨c, cs, hcs⟩ := List.exists_cons_of_ne_nil h1
  have hs : String.mk (c :: cs) = s := by
    rw [← hcs]
  unfold matchPattern
  rw [split_hello_path, splitOnSlash_no_slash s.data h2, split_hello_pattern, hcs]
  show (if (c :: cs).isEmpty = true then none
        else (segMatch [] []).map fun caps => String.mk (c :: cs) :: caps) = some [s]
  simp [segMatch, hs]

theorem serveRun_eq (a : App) (reqs : List (String × String)) :
    serveRun a reqs = (reqs.map (fun r => dispatch a r.1 r.2), a) := by
  induction reqs with
  | nil => rfl
  | cons r rs ih => simp [serveRun, step, ih]

/-- C1: for every string s accepted by the route matcher (non-empty, no
slash), the request GET /hello/s is dispatched to the hello handler and
returns status 200 with Content-Type application/json and body
equal to the JSON object whose single field message is "Hello, " ++ s ++ "!". -/
theorem hello_route_greeting (s : String) (h1 : s.data ≠ []) (h2 : '/' ∉ s.data) :
    dispatch app "GET" ("/hello/" ++ s) =
      HttpResult.ok { status := 200, contentType := "application/json",
                      body := Json.obj [("message", Json.str ("Hello, " ++ s ++ "!"))] } := by
  have hm := matchPattern_hello s h1 h2
  simp [dispatch, app, findRoute, helloRoute, hm, hello, jsonify]

theorem hello_route_greeting_witness :
    "World".data ≠ [] ∧ '/' ∉ "World".data ∧
      dispatch app "GET" ("/hello/" ++ "World") =
        HttpResult.ok { status := 200, contentType := "application/json",
                        body := Json.obj [("message", Json.str ("Hello, " ++ "World" ++ "!"))] } :=
  ⟨by decide, by decide, hello_route_greeting "World" (by decide) (by decide)⟩

/-- C2: GET /health always returns status 200 with Content-Type
application/json and body equal to the JSON object whose single field
status is "healthy", regardless of any prior requests; two consecutive
GET /health requests return identical results, and the health handler
never fails. -/
theorem health_idempotent (prior : List (String × String)) :
    (serveRun app (prior ++ [("GET", "/health"), ("GET", "/health")])).1 =
      (serveRun app prior).1 ++
        [HttpResult.ok { status := 200, contentType := "application/json",
                         body := Json.obj [("status", Json.str "healthy")] },
         HttpResult.ok { status := 200, contentType := "application/json",
                         body := Json.obj [("status", Json.str "healthy")] }] ∧
    healthRoute.handle [] = some health := by
  constructor
  · rw [serveRun_eq, serveRun_eq]
    simp only [List.map_append]
    rfl
  · rfl

theorem health_idempotent_witness :
    (serveRun app ([] ++ [("GET", "/health"), ("GET", "/health")])).1 =
      (serveRun app []).1 ++
        [HttpResult.ok { status := 200, contentType := "application/json",
                         body := Json.obj [("status", Json.str "healthy")] },
         HttpResult.ok { status := 200, contentType := "application/json",
                         body := Json.obj [("status", Json.str "healthy")] }] ∧
    healthRoute.handle [] = some health :=
  health_idempotent []

/-- C3: the hello handler is total and error-free over all string inputs:
for every string name, the route handler succeeds (returns some response,
never an error), the response has status 200, and the name is embedded in
the message field verbatim, with no validation or sanitization. -/
theorem hello_total_verbatim (name : String) :
    helloRoute.handle [name] = some (hello name) ∧
    (hello name).status = 200 ∧
    (hello name).body.lookup "message" = some (Json.str ("Hello, " ++ name ++ "!")) := by
  refine ⟨rfl, rfl, ?_⟩
  simp [hello, jsonify, Json.lookup, lookupField]

theorem hello_total_verbatim_witness :
    helloRoute.handle ["<script>&/x"] = some (hello "<script>&/x") ∧
    (hello "<script>&/x").status = 200 ∧
    (hello "<script>&/x").body.lookup "message" =
      some (Json.str ("Hello, " ++ "<script>&/x" ++ "!")) :=
  hello_total_verbatim "<script>&/x"

/-- C4: handlers are pure functions of their input with no cross-request
shared mutable state: the response to a request is independent of the
requests served before it in any run, and equals the dispatch of that
request alone against the startup application state. -/
theorem requests_independent (pre1 pre2 : List (String × String)) (m p : String) :
    (serveRun app (pre1 ++ [(m, p)])).1.getLast? =
      (serveRun app (pre2 ++ [(m, p)])).1.getLast? ∧
    (serveRun app (pre1 ++ [(m, p)])).1.getLast? = some (dispatch app m p) := by
  have key : ∀ pre : List (String × String),
      (serveRun app (pre ++ [(m, p)])).1.getLast? = some (dispatch app m p) := by
    intro pre
    rw [serveRun_eq]
    simp
  exact ⟨(key pre1).trans (key pre2).symm, key pre1⟩

theorem requests_independent_witness :
    (serveRun app ([("GET", "/health")] ++ [("GET", "/hello/World")])).1.getLast? =
      (serveRun app ([] ++ [("GET", "/hello/World")])).1.getLast? ∧
    (serveRun app ([("GET", "/health")] ++ [("GET", "/hello/World")])).1.getLast? =
      some (dispatch app "GET" "/hello/World") :=
  requests_independent [("GET", "/health")] [] "GET" "/hello/World"

/-- C5: a request whose method/path pair matches neither GET /hello/<name>
nor GET /health is dispatched to the framework's default 404 result, and
no route other than these two is registered. -/
theorem unmatched_falls_to_default (method path : String)
    (h1 : ¬(method = "GET" ∧ (matchPattern "/hello/<name>" path).isSome = true))
    (h2 : ¬(method = "GET" ∧ (matchPattern "/health" path).isSome = true)) :
    dispatch app method path = HttpResult.notFound ∧
    app.routes.map Route.pattern = ["/hello/<name>", "/health"] := by
  refine ⟨?_, rfl⟩
  by_cases hm : method = "GET"
  · subst hm
    have hh1 : matchPattern "/hello/<name>" path = none := by
      cases hmp : matchPattern "/hello/<name>" path with
      | none => rfl
      | some v => exact absurd ⟨rfl, by simp [hmp]⟩ h1
    have hh2 : matchPattern "/health" path = none := by
      cases hmp : matchPattern "/health" path with
      | none => rfl
      | some v => exact absurd ⟨rfl, by simp [hmp]⟩ h2
    simp [dispatch, app, findRoute, helloRoute, healthRoute, hh1, hh2]
  · simp [dispatch, app, findRoute, helloRoute, healthRoute, hm]

theorem unmatched_falls_to_default_witness :
    dispatch app "POST" "/health" = HttpResult.notFound ∧
    app.routes.map Route.pattern = ["/hello/<name>", "/health"] :=
  unmatched_falls_to_default "POST" "/health" (by decide) (by decide)

/-- C6: every response produced by the two handlers carries Content-Type
application/json, for both the greeting and the health endpoint. -/
theorem responses_content_type (name : String) :
    (hello name).contentType = "application/json" ∧
    health.contentType = "application/json" :=
  ⟨rfl, rfl⟩

theorem responses_content_type_witness :
    (hello "World").contentType = "application/json" ∧
    health.contentType = "application/json" :=
  responses_content_type "World"

/-- C7: when started directly, the service binds to host 0.0.0.0 on fixed
port 5000, whatever the process environment and command-line arguments
are. -/
theorem run_config_fixed (env : List (String × String)) (args : List String) :
    mainRun env args = { host := "0.0.0.0", port := 5000 } :=
  rfl

theorem run_config_fixed_witness :
    mainRun [("PORT", "9999")] ["--port", "8080"] = { host := "0.0.0.0", port := 5000 } :=
  run_config_fixed [("PORT", "9999")] ["--port", "8080"]

/-- C8: the dispatch table holds exactly the two route patterns
/hello/<name> and /health, and serving any sequence of requests leaves the
application state, and hence the route table, unchanged. -/
theorem route_table_constant (reqs : List (String × String)) :
    (serveRun app reqs).2 = app ∧
    app.routes.map Route.pattern = ["/hello/<name>", "/health"] :=
  ⟨by rw [serveRun_eq], rfl⟩

theorem route_table_constant_witness :
    (serveRun app [("GET", "/health"), ("GET", "/hello/World"), ("POST", "/nope")]).2 = app ∧
    app.routes.map Route.pattern = ["/hello/<name>", "/health"] :=
  route_table_constant [("GET", "/health"), ("GET", "/hello/World"), ("POST", "/nope")]

/-- C9: GET /hello/ with an empty name segment does not match the greeting
route, and neither does GET /hello/x when x contains a path separator:
both fall through to the default 404 result, since the route only matches
a single non-empty path segment. -/
theorem hello_single_segment :
    dispatch app "GET" "/hello/" = HttpResult.notFound ∧
    ∀ x : String, '/' ∈ x.data →
      dispatch app "GET" ("/hello/" ++ x) = HttpResult.notFound := by
  constructor
  · rfl
  · intro x h
    have hlen : 2 ≤ (splitOnSlash x.data).length := splitOnSlash_length_of_slash x.data h
    have h1 : matchPattern "/hello/<name>" ("/hello/" ++ x) = none := by
      unfold matchPattern
      rw [split_hello_path, split_hello_pattern]
      apply segMatch_none_of_length_ne
      simp only [List.length_cons, List.length_nil]
      omega
    have h2 : matchPattern "/health" ("/hello/" ++ x) = none := by
      unfold matchPattern
      rw [split_hello_path, split_health_pattern]
      apply segMatch_none_of_length_ne
      simp only [List.length_cons, List.length_nil]
      omega
    simp [dispatch, app, findRoute, helloRoute, healthRoute, h1, h2]

theorem hello_single_segment_witness :
    '/' ∈ "a/b".data ∧
    dispatch app "GET" ("/hello/" ++ "a/b") = HttpResult.notFound :=
  ⟨by decide, hello_single_segment.2 "a/b" (by decide)⟩

/-- C10: the greeting is injective in the name: if two names produce the
same greeting body, the names are equal, so distinct names always yield
distinct greeting bodies. -/
theorem hello_injective (a b : String) (h : (hello a).body = (hello b).body) :
    a = b := by
  have h1 : ("Hello, " ++ a ++ "!") = ("Hello, " ++ b ++ "!") := by
    simpa [hello, jsonify] using h
  have h3 : ("Hello, ".data ++ a.data) ++ "!".data =
      ("Hello, ".data ++ b.data) ++ "!".data := by
    have := congrArg String.data h1
    rwa [string_data_append, string_data_append, string_data_append,
         string_data_append] at this
  have h5 : a.data = b.data :=
    List.append_cancel_left (List.append_cancel_right h3)
  have h6 := congrArg String.mk h5
  rwa [string_mk_data, string_mk_data] at h6

theorem hello_injective_witness :
    (hello "World").body = (hello "World").body ∧ "World" = "World" :=
  ⟨rfl, hello_injective "World" "World" rfl⟩

end AppPy
